import Mathlib

/-!
Verification of the project-initialization script (`init.py`).

The script is an interactive console program.  We embed it shallowly:

* console input is a finite list of events, each either a typed line or an
  interrupt signal (Ctrl+C / `KeyboardInterrupt`);
* each interactive function becomes a pure function from the input stream
  (plus a fuel bound for its unbounded `while True:` loops) to a result
  carrying the unconsumed remainder of the stream;
* exceptions (`KeyboardInterrupt`, `EOFError`, `FileNotFoundError`,
  `KeyError`, `RecursionError`) become an explicit error constructor;
* the filesystem pieces the script touches (`pyproject.toml` as a parsed
  TOML structure, `LICENSE` as text, and the listing of the working
  directory for the recursive walk) are explicit state.
-/

namespace PyInit

/-- One console input event: a line the user typed, or an interrupt signal. -/
inductive InEvent where
  | line (s : String)
  | interrupt
  deriving DecidableEq

/-- The exceptional outcomes the script can encounter. `fuelOut` models a
loop that never terminates (fuel exhaustion of the embedding). -/
inductive Exc where
  | keyboardInterrupt
  | eof
  | fileNotFound
  | keyError
  | recursionError
  | fuelOut
  deriving DecidableEq

/-- Result of running an interactive fragment: a value plus the remaining
input stream, or an exception plus the remaining input stream. -/
inductive R (α : Type) where
  | ok (a : α) (rest : List InEvent)
  | exc (e : Exc) (rest : List InEvent)
  deriving DecidableEq

/-- ASCII lowering of one character, the fragment of Python `str.lower`
relevant to the `y/n` comparisons of the script. -/
def pyLowerChar (c : Char) : Char :=
  if 'A' ≤ c ∧ c ≤ 'Z' then Char.ofNat (c.toNat + 32) else c

/-- Model of Python `str.lower` (ASCII range). -/
def pyLower (s : String) : String :=
  ⟨s.data.map pyLowerChar⟩

/-- `DEFAULT_PY_VERSION` from the source. -/
def DEFAULT_PY_VERSION : String := ">=3.10"

/-- One call of Python `input(...)`: consumes the next event; an interrupt
event raises `KeyboardInterrupt`, an exhausted stream raises `EOFError`. -/
def inputLine : List InEvent → R String
  | [] => .exc .eof []
  | .line s :: r => .ok s r
  | .interrupt :: r => .exc .keyboardInterrupt r

/-- A `while not (x := input(...)): print(...)` loop from the source: keep
reading lines until a non-empty one arrives. -/
def promptNonEmpty : List InEvent → R String
  | [] => .exc .eof []
  | .line s :: r => if s = "" then promptNonEmpty r else .ok s r
  | .interrupt :: r => .exc .keyboardInterrupt r

/-- The python-version prompt of `query_params`:
`input(...) or DEFAULT_PY_VERSION`. -/
def pyPrompt : List InEvent → R String
  | [] => .exc .eof []
  | .line s :: r => .ok (if s = "" then DEFAULT_PY_VERSION else s) r
  | .interrupt :: r => .exc .keyboardInterrupt r

/-- The version prompt of the dependency loop:
`while not (version := input(...) or ""): print(...)`.  The `or ""`
fallback is written out literally, as in the source. -/
def promptVersion : List InEvent → R String
  | [] => .exc .eof []
  | .line s :: r =>
    let version := if s = "" then "" else s
    if version = "" then promptVersion r else .ok version r
  | .interrupt :: r => .exc .keyboardInterrupt r

/-- `query_params` from the source.  The `Nat` argument is fuel for the
outer `while True:` loop (one unit per confirmation-rejected restart). -/
def query_params : Bool → Nat → List InEvent → R (String × String × String × String × String)
  | _, 0, st => .exc .fuelOut st
  | validate, fuel + 1, st =>
    match promptNonEmpty st with
    | .exc e r => .exc e r
    | .ok name r1 =>
      match promptNonEmpty r1 with
      | .exc e r => .exc e r
      | .ok email r2 =>
        match promptNonEmpty r2 with
        | .exc e r => .exc e r
        | .ok project_name r3 =>
          match promptNonEmpty r3 with
          | .exc e r => .exc e r
          | .ok project_description r4 =>
            match pyPrompt r4 with
            | .exc e r => .exc e r
            | .ok py_version r5 =>
              if validate then
                match inputLine r5 with
                | .exc e r => .exc e r
                | .ok conf r6 =>
                  if pyLower conf ≠ "y" then
                    query_params validate fuel r6
                  else
                    .ok (name, email, project_name, project_description, py_version) r6
              else
                .ok (name, email, project_name, project_description, py_version) r5

/-- Python `dict` assignment `deps[dep] = version`: overwrite in place if
the key exists, else append (insertion order preserved). -/
def dictInsert (d : List (String × String)) (k v : String) : List (String × String) :=
  if d.any (fun p => p.1 = k) then
    d.map (fun p => if p.1 = k then (k, v) else p)
  else
    d ++ [(k, v)]

/-- `query_dependencies` from the source.  The state `deps` is the mapping
built so far; the `Nat` argument is fuel for the outer `while True:` loop.
The scope label only affects printed text and is omitted.  Note the order
of operations at the end of the `try:` block, exactly as in the source:
the `Add another dependency?` answer is read *before* `deps[dep] = version`
runs, and a non-`y` answer `break`s out first. -/
def query_dependencies : Nat → List (String × String) → List InEvent → R (List (String × String))
  | 0, _, st => .exc .fuelOut st
  | fuel + 1, deps, st =>
    match inputLine st with
    | .exc e r => .exc e r
    | .ok ans r =>
      if pyLower ans ≠ "y" then
        .ok deps r
      else
        match promptNonEmpty r with
        | .exc .keyboardInterrupt r2 => .ok [] r2
        | .exc e r2 => .exc e r2
        | .ok dep r2 =>
          match promptVersion r2 with
          | .exc .keyboardInterrupt r3 => .ok [] r3
          | .exc e r3 => .exc e r3
          | .ok version r3 =>
            match inputLine r3 with
            | .exc .keyboardInterrupt r4 => .ok [] r4
            | .exc e r4 => .exc e r4
            | .ok ans2 r4 =>
              if pyLower ans2 ≠ "y" then
                .ok deps r4
              else
                query_dependencies fuel (dictInsert deps dep version) r4

/-- Does `pat` occur at the head of the text?  (Model of a left-anchored
match, used by the replacement scan.) -/
def isMatch : List Char → List Char → Bool
  | [], _ => true
  | _ :: _, [] => false
  | p :: ps, c :: cs => p = c && isMatch ps cs

/-- Left-to-right, non-overlapping replacement scan over a character list,
the semantics of Python `str.replace` for a non-empty pattern.  `skip`
counts characters still belonging to an already-replaced match. -/
def replaceGo (pat rep : List Char) : List Char → Nat → List Char
  | [], _ => []
  | _ :: rest, n + 1 => replaceGo pat rep rest n
  | c :: rest, 0 =>
    if pat ≠ [] ∧ isMatch pat (c :: rest) then
      rep ++ replaceGo pat rep rest (pat.length - 1)
    else
      c :: replaceGo pat rep rest 0

/-- Model of Python `s.replace(pat, rep)` (for the non-empty patterns the
script uses). -/
def pyReplace (s pat rep : String) : String :=
  ⟨replaceGo pat.data rep.data s.data 0⟩

/-- Does `pat` occur anywhere in the text? -/
def hasTok (pat : List Char) : List Char → Bool
  | [] => false
  | c :: rest => isMatch pat (c :: rest) || hasTok pat rest

/-- `update_license` from the source, as the pure text transformation it
performs on the contents of `LICENSE`: `<year>` is replaced by
`str(datetime.now().year)` first, then `<name>` by the author name. -/
def update_license (name : String) (year : Nat) (data : String) : String :=
  pyReplace (pyReplace data "<year>" (toString year)) "<name>" name

/-- One entry of the working-directory listing: a regular file with text
contents, or a directory with children. -/
inductive Entry where
  | file (name content : String)
  | dir (name : String) (children : List Entry)

/-- The name of a directory entry. -/
def entryName : Entry → String
  | .file n _ => n
  | .dir n _ => n

/-- `os.listdir(".")`: the names of the entries of the working directory. -/
def listNames (cwd : List Entry) : List String :=
  cwd.map entryName

/-- Resolve a name against the working-directory listing
(`os.path.isdir` / `os.path.isfile` / `open`). -/
def lookupEntry (n : String) : List Entry → Option Entry
  | [] => none
  | e :: es => if entryName e = n then some e else lookupEntry n es

/-- Overwrite the contents of the file named `n` in the listing. -/
def updateFile (n c : String) : List Entry → List Entry
  | [] => []
  | e :: es =>
    if entryName e = n then
      match e with
      | .file _ _ => .file n c :: es
      | .dir m ch => .dir m ch :: es
    else
      e :: updateFile n c es

/-- The `for path in os.listdir("."):` loop body of `rename_project`,
iterating over a snapshot of the listed names.  A directory entry triggers
the recursive call `rename_project(path)` — abstracted here as `rec`;
since the source never changes the working directory, that call lists the
*same* working directory again, with the directory's own name as the new
replacement string.  A file entry is rewritten with
`data.replace("project_name", project_name)`. -/
def renameIter (rec : List Entry → String → Option (List Entry)) :
    List String → List Entry → String → Option (List Entry)
  | [], cwd, _ => some cwd
  | n :: rest, cwd, project_name =>
    match lookupEntry n cwd with
    | some (.dir _ _) =>
      match rec cwd n with
      | none => none
      | some cwd' => renameIter rec rest cwd' project_name
    | some (.file _ c) =>
      renameIter rec rest (updateFile n (pyReplace c "project_name" project_name) cwd) project_name
    | none => renameIter rec rest cwd project_name

/-- `rename_project` from the source.  The fuel bounds the recursion depth
(Python's recursion limit); `none` models `RecursionError`. -/
def rename_project : Nat → List Entry → String → Option (List Entry)
  | 0, _, _ => none
  | fuel + 1, cwd, project_name =>
    renameIter (rename_project fuel) (listNames cwd) cwd project_name

/-- A TOML value as `toml.load` produces it: we only need strings, arrays
and tables (nested string-keyed mappings). -/
inductive TomlV where
  | str (s : String)
  | arr (xs : List TomlV)
  | table (kvs : List (String × TomlV))

/-- Python `d[k]` on a loaded TOML table; `none` models `KeyError` (or the
`TypeError` of indexing a non-table, equally fatal). -/
def tget (t : TomlV) (k : String) : Option TomlV :=
  match t with
  | .table kvs =>
    match kvs.find? (fun p => p.1 = k) with
    | some p => some p.2
    | none => none
  | _ => none

/-- Python `d[k] = v` on a table: overwrite in place if present, else
append. -/
def tset (t : TomlV) (k : String) (v : TomlV) : TomlV :=
  match t with
  | .table kvs =>
    if kvs.any (fun p => p.1 = k) then
      .table (kvs.map (fun p => if p.1 = k then (k, v) else p))
    else
      .table (kvs ++ [(k, v)])
  | other => other

/-- Chained lookup `d[k1][k2]...` -/
def tgetPath (t : TomlV) : List String → Option TomlV
  | [] => some t
  | k :: ks =>
    match tget t k with
    | none => none
    | some u => tgetPath u ks

/-- The list comprehension from `main`:
a dependency mapping rendered as an array of quoted `"name version"`
strings. -/
def depsArr (deps : List (String × String)) : TomlV :=
  .arr (deps.map (fun p => .str ("\"" ++ p.1 ++ " " ++ p.2 ++ "\"")))

/-- The block of `main` that writes the five collected answers into the
descriptor: `data["project"]["authors"] = [{"name": name, "email": email}]`
and the three scalar fields.  `none` models the `KeyError` raised when
`data["project"]` is missing. -/
def setAnswers (data : TomlV) (name email project_name project_description py_version : String) : Option TomlV :=
  match tget data "project" with
  | none => none
  | some proj =>
    let proj := tset proj "authors" (.arr [.table [("name", .str name), ("email", .str email)]])
    let proj := tset proj "name" (.str project_name)
    let proj := tset proj "description" (.str project_description)
    let proj := tset proj "python" (.str py_version)
    some (tset data "project" proj)

/-- `data["project"]["dependencies"] = [...]` from `main`. -/
def setDeps (data : TomlV) (deps : List (String × String)) : Option TomlV :=
  match tget data "project" with
  | none => none
  | some proj => some (tset data "project" (tset proj "dependencies" (depsArr deps)))

/-- `data["project"]["optional-dependencies"][k] = [...]` from `main`:
the lookups of `project` and `optional-dependencies` may raise `KeyError`,
the final assignment always succeeds. -/
def setOptDeps (data : TomlV) (k : String) (deps : List (String × String)) : Option TomlV :=
  match tget data "project" with
  | none => none
  | some proj =>
    match tget proj "optional-dependencies" with
    | none => none
    | some opt =>
      some (tset data "project" (tset proj "optional-dependencies" (tset opt k (depsArr deps))))

/-- `os.rename("src/project_name", f"src/" + project_name)`: rename the
entry `project_name` inside the directory `src` of the working-directory
listing; `none` models the `FileNotFoundError` when the path is missing. -/
def osRenameSrc (tree : List Entry) (project_name : String) : Option (List Entry) :=
  match lookupEntry "src" tree with
  | some (.dir _ children) =>
    match lookupEntry "project_name" children with
    | none => none
    | some old =>
      let renamed :=
        match old with
        | .file _ c => Entry.file project_name c
        | .dir _ ch => Entry.dir project_name ch
      let children' := children.map (fun e => if entryName e = "project_name" then renamed else e)
      some (tree.map (fun e => if entryName e = "src" then .dir "src" children' else e))
  | _ => none

/-- The filesystem state `main` interacts with: the parsed contents of
`pyproject.toml` (`none` = file missing), the text of `LICENSE` (`none` =
file missing), and the working-directory listing seen by the recursive
walk and the final directory rename. -/
structure St where
  pyproject : Option TomlV
  license : Option String
  tree : List Entry

/-- How the process ends: `exit(code)` (or falling off `main`, exit 0), or
an uncaught exception. -/
inductive Outcome where
  | exited (code : Nat)
  | crashed (e : Exc)
  deriving DecidableEq

/-- The tail of `main`, from `rename_project(project_name)` on: the
recursive walk, `os.rename("src/project_name", f"src/" + project_name)`,
and the in-memory assignment
`data["tool"]["setuptools"]["dynamic"] = f"..."` — which runs *after*
`toml.dump` has already written the file, so only its `KeyError`
possibility is observable. -/
def mainRenameStage (fuel : Nat) (st : St) (project_name : String) (data : TomlV) : Outcome × St :=
  match rename_project fuel st.tree project_name with
  | none => (.crashed .recursionError, st)
  | some tree' =>
    let st := { st with tree := tree' }
    match osRenameSrc st.tree project_name with
    | none => (.crashed .fileNotFound, st)
    | some tree'' =>
      let st := { st with tree := tree'' }
      match tget data "tool" with
      | none => (.crashed .keyError, st)
      | some tl =>
        match tget tl "setuptools" with
        | none => (.crashed .keyError, st)
        | some stls =>
          let _d6 := tset data "tool" (tset tl "setuptools" (tset stls "dynamic" (.str (project_name ++ ".__version__"))))
          (.exited 0, st)

/-- `main` from the source.  `fuel` bounds the unbounded console loops,
`rlimit` is the recursion-depth limit available to `rename_project`
(Python's recursion limit), and `year` is `datetime.now().year`.  All code
after the descriptor load sits in a `try: ... except KeyboardInterrupt:`
whose handler calls `exit(0)`, so every `KeyboardInterrupt` surfacing from
the prompts becomes `exited 0`; every other exception propagates and
crashes the process. -/
def main (fuel rlimit year : Nat) (st : St) (input : List InEvent) : Outcome × St :=
  match st.pyproject with
  | none => (.exited 1, st)
  | some data =>
    match query_params true fuel input with
    | .exc .keyboardInterrupt _ => (.exited 0, st)
    | .exc e _ => (.crashed e, st)
    | .ok (name, email, project_name, project_description, py_version) s1 =>
      match setAnswers data name email project_name project_description py_version with
      | none => (.crashed .keyError, st)
      | some d1 =>
        match query_dependencies fuel [] s1 with
        | .exc .keyboardInterrupt _ => (.exited 0, st)
        | .exc e _ => (.crashed e, st)
        | .ok rdeps s2 =>
          match setDeps d1 rdeps with
          | none => (.crashed .keyError, st)
          | some d2 =>
            match query_dependencies fuel [] s2 with
            | .exc .keyboardInterrupt _ => (.exited 0, st)
            | .exc e _ => (.crashed e, st)
            | .ok ddeps s3 =>
              match setOptDeps d2 "dev" ddeps with
              | none => (.crashed .keyError, st)
              | some d3 =>
                match query_dependencies fuel [] s3 with
                | .exc .keyboardInterrupt _ => (.exited 0, st)
                | .exc e _ => (.crashed e, st)
                | .ok odeps s4 =>
                  match setOptDeps d3 "doc" odeps with
                  | none => (.crashed .keyError, st)
                  | some d4 =>
                    match query_dependencies fuel [] s4 with
                    | .exc .keyboardInterrupt _ => (.exited 0, st)
                    | .exc e _ => (.crashed e, st)
                    | .ok tdeps _s5 =>
                      match setOptDeps d4 "test" tdeps with
                      | none => (.crashed .keyError, st)
                      | some d5 =>
                        match st.license with
                        | none => (.crashed .fileNotFound, st)
                        | some ltxt =>
                          let st := { st with license := some (update_license name year ltxt) }
                          let st := { st with pyproject := some d5 }
                          mainRenameStage rlimit st project_name d5


/-! ### Concrete fixtures for the end-to-end runs -/

/-- A minimal `pyproject.toml` as the template ships it: a `project` table
with empty dependency containers, an `optional-dependencies` table with
`dev`/`doc`/`test` keys, and the `tool.setuptools` section. -/
def minimalDescriptor : TomlV :=
  .table [
    ("project", .table [
      ("name", .str "project_name"),
      ("description", .str "template"),
      ("python", .str ">=3.8"),
      ("authors", .arr []),
      ("dependencies", .arr []),
      ("optional-dependencies", .table [("dev", .arr []), ("doc", .arr []), ("test", .arr [])])]),
    ("tool", .table [("setuptools", .table [("dynamic", .str "project_name.__version__")])])]

/-- A license text with both placeholder tokens. -/
def licenseTemplate : String := "MIT License Copyright (c) <year> <name>"

/-- Console answers of the end-to-end scenario of the spec: the five
metadata answers with an empty python-version line, `y` to confirm, and
`n` to all four dependency prompts. -/
def standardAnswers : List InEvent :=
  [.line "Ada", .line "a@x.com", .line "acme", .line "demo", .line "", .line "y",
   .line "n", .line "n", .line "n", .line "n"]

/-- The working-directory listing of the end-to-end scenario: it contains
the directory `src/project_name`. -/
def srcTree : List Entry := [.dir "src" [.dir "project_name" []]]

/-- Full starting state of the end-to-end scenario. -/
def endToEndSt : St :=
  { pyproject := some minimalDescriptor, license := some licenseTemplate, tree := srcTree }

/-- The descriptor as `toml.dump` writes it in the end-to-end scenario:
the five answers applied to `minimalDescriptor` and all four dependency
fields set to empty arrays. -/
def dumpedDescriptor : TomlV :=
  .table [
    ("project", .table [
      ("name", .str "acme"),
      ("description", .str "demo"),
      ("python", .str ">=3.10"),
      ("authors", .arr [.table [("name", .str "Ada"), ("email", .str "a@x.com")]]),
      ("dependencies", .arr []),
      ("optional-dependencies", .table [("dev", .arr []), ("doc", .arr []), ("test", .arr [])])]),
    ("tool", .table [("setuptools", .table [("dynamic", .str "project_name.__version__")])])]

/-- Console answers collecting `requests >=2.0` for the runtime scope,
interrupting the development scope at its dependency-name prompt, and
declining the documentation and testing scopes. -/
def scopesAnswers : List InEvent :=
  [.line "Ada", .line "a@x.com", .line "acme", .line "demo", .line "", .line "y",
   .line "y", .line "requests", .line ">=2.0", .line "y", .line "n",
   .line "y", .interrupt,
   .line "n", .line "n"]

/-- A starting state whose working-directory listing has no
subdirectories (so the recursive walk terminates). -/
def flatSt : St :=
  { pyproject := some minimalDescriptor, license := some licenseTemplate, tree := [] }

/-! ### Helper lemmas -/

theorem pyLower_y : pyLower "y" = "y" := rfl

theorem promptNonEmpty_skip (r : List InEvent) :
    promptNonEmpty (.line "" :: r) = promptNonEmpty r := by
  simp [promptNonEmpty]

theorem promptNonEmpty_accept {s : String} (h : s ≠ "") (r : List InEvent) :
    promptNonEmpty (.line s :: r) = .ok s r := by
  simp [promptNonEmpty, h]

theorem pyPrompt_default (r : List InEvent) :
    pyPrompt (.line "" :: r) = .ok DEFAULT_PY_VERSION r := by
  simp [pyPrompt]

theorem promptVersion_skip (r : List InEvent) :
    promptVersion (.line "" :: r) = promptVersion r := by
  simp [promptVersion]

theorem promptVersion_ok_ne : ∀ {st : List InEvent} {v : String} {r : List InEvent},
    promptVersion st = .ok v r → v ≠ "" := by
  intro st
  induction st with
  | nil => intro v r h; simp [promptVersion] at h
  | cons e rest ih =>
    intro v r h
    cases e with
    | line s =>
      by_cases hs : s = ""
      · rw [hs, promptVersion_skip] at h
        exact ih h
      · simp [promptVersion, hs] at h
        rw [← h.1]
        exact hs
    | interrupt => simp [promptVersion] at h

theorem dictInsert_snd_ne {deps : List (String × String)} {k v : String}
    (hd : ∀ p ∈ deps, p.2 ≠ "") (hv : v ≠ "") :
    ∀ p ∈ dictInsert deps k v, p.2 ≠ "" := by
  intro p hp
  unfold dictInsert at hp
  split at hp
  · obtain ⟨q, hq, hpq⟩ := List.mem_map.1 hp
    by_cases hqk : q.1 = k
    · rw [if_pos hqk] at hpq
      rw [← hpq]
      exact hv
    · rw [if_neg hqk] at hpq
      rw [← hpq]
      exact hd q hq
  · rcases List.mem_append.1 hp with hl | hr
    · exact hd p hl
    · rw [List.mem_singleton.1 hr]
      exact hv

theorem qd_versions_ne : ∀ (fuel : Nat) {deps : List (String × String)}
    {st : List InEvent} {res : List (String × String)} {r : List InEvent},
    (∀ p ∈ deps, p.2 ≠ "") → query_dependencies fuel deps st = .ok res r →
    ∀ p ∈ res, p.2 ≠ "" := by
  intro fuel
  induction fuel with
  | zero => intro deps st res r hd h; simp [query_dependencies] at h
  | succ f ih =>
    intro deps st res r hd h
    simp only [query_dependencies] at h
    split at h
    · exact absurd h (by simp)
    · split at h
      · rw [R.ok.injEq] at h
        rw [← h.1]
        exact hd
      · split at h
        · rw [R.ok.injEq] at h
          rw [← h.1]
          intro p hp
          simp at hp
        · exact absurd h (by simp)
        · split at h
          · rw [R.ok.injEq] at h
            rw [← h.1]
            intro p hp
            simp at hp
          · exact absurd h (by simp)
          · rename_i version r3 hver
            split at h
            · rw [R.ok.injEq] at h
              rw [← h.1]
              intro p hp
              simp at hp
            · exact absurd h (by simp)
            · split at h
              · rw [R.ok.injEq] at h
                rw [← h.1]
                exact hd
              · exact ih (dictInsert_snd_ne hd (promptVersion_ok_ne hver)) h

theorem rename_head_dir (m : String) (ch rest : List Entry) :
    ∀ (fuel : Nat) (p : String), rename_project fuel (.dir m ch :: rest) p = none := by
  intro fuel
  induction fuel with
  | zero => intro p; rfl
  | succ f ih =>
    intro p
    simp [rename_project, listNames, entryName, renameIter, lookupEntry, ih]

/-! ### Claims -/

/-- Claim C1 (refuted; code bug): in `query_dependencies`, after the name
`requests` and the version `>=2.0` have been collected, answering `n` to
`Add another dependency?` executes `break` *before* `deps[dep] = version`
runs, so the entry just collected is dropped and the empty mapping is
returned — not the claimed one-entry mapping.  The second conjunct shows
the entry is committed only when the user answers `y` to `Add another
dependency?` (and then answers the re-asked outer prompt with `n`). -/
theorem c1_last_entry_dropped :
    query_dependencies 1 [] [.line "y", .line "requests", .line ">=2.0", .line "n"] =
      .ok [] [] ∧
    query_dependencies 2 [] [.line "y", .line "requests", .line ">=2.0", .line "y", .line "n"] =
      .ok [("requests", ">=2.0")] [] :=
  ⟨rfl, rfl⟩

/-- Claim C2 (refuted; code bug): `rename_project` never reaches the files
of a subdirectory.  The recursive call `rename_project(path)` does not
change the working directory, so it lists the *same* top-level directory
again (and passes the subdirectory's name as the replacement string); on
any working directory containing a subdirectory the recursion therefore
never bottoms out — for every recursion-depth budget the call exhausts it
(`RecursionError`), and the file `sub/a.txt` containing
`project_name.utils` is never rewritten. -/
theorem c2_subdir_walk_diverges :
    ∀ fuel : Nat,
      rename_project fuel [.dir "sub" [.file "a.txt" "project_name.utils"]] "acme" = none :=
  fun fuel => rename_head_dir "sub" [.file "a.txt" "project_name.utils"] [] fuel "acme"

/-- Counterexample to claim C4 as stated: the confirmation comparison in
`query_params` is `input(...).lower() != "y"`, so the literal answer
`yes` does *not* confirm — it discards the first Answer Set and restarts
collection, and the second Answer Set is the one returned. -/
theorem c4_counterexample_yes_restarts :
    query_params true 2
      [.line "Ada", .line "a@x.com", .line "acme", .line "demo", .line "", .line "yes",
       .line "Bob", .line "b@y.com", .line "bee", .line "docs", .line "x", .line "y"] =
      .ok ("Bob", "b@y.com", "bee", "docs", "x") [] :=
  rfl

theorem query_params_round :
    ∀ (a b c d e conf : String) (r : List InEvent) (fuel : Nat),
      a ≠ "" → b ≠ "" → c ≠ "" → d ≠ "" →
      (pyLower conf = "y" →
        query_params true (fuel + 1)
          (.line a :: .line b :: .line c :: .line d :: .line e :: .line conf :: r) =
          .ok (a, b, c, d, if e = "" then DEFAULT_PY_VERSION else e) r) ∧
      (pyLower conf ≠ "y" →
        query_params true (fuel + 1)
          (.line a :: .line b :: .line c :: .line d :: .line e :: .line conf :: r) =
          query_params true fuel r) := by
  intro a b c d e conf r fuel ha hb hc hd
  constructor
  · intro hy
    simp [query_params, promptNonEmpty, pyPrompt, inputLine, ha, hb, hc, hd, hy]
  · intro hy
    simp [query_params, promptNonEmpty, pyPrompt, inputLine, ha, hb, hc, hd, hy]

/-- Claim C4 (amended): in `query_params` with validation enabled, after
the five answers are collected the function asks for confirmation; any
answer whose lower-cased form is not `y` discards the whole Answer Set and
restarts collection from the top on the remaining input (so none of the
previous values is reused), while an answer lower-casing to `y` (such as
`y` or `Y`, but not `yes`) confirms and the five values are returned. -/
theorem c4_confirmation_requires_y :
    ∀ (a b c d e conf : String) (r : List InEvent) (fuel : Nat),
      a ≠ "" → b ≠ "" → c ≠ "" → d ≠ "" →
      (pyLower conf = "y" →
        query_params true (fuel + 1)
          (.line a :: .line b :: .line c :: .line d :: .line e :: .line conf :: r) =
          .ok (a, b, c, d, if e = "" then DEFAULT_PY_VERSION else e) r) ∧
      (pyLower conf ≠ "y" →
        query_params true (fuel + 1)
          (.line a :: .line b :: .line c :: .line d :: .line e :: .line conf :: r) =
          query_params true fuel r) :=
  query_params_round

/-- Witness for C4: a concrete confirmed run (confirmation `Y`) and a
concrete rejected run (confirmation `nope` restarts on the rest). -/
theorem c4_witness :
    (query_params true 1
        [.line "Ada", .line "a@x.com", .line "acme", .line "demo", .line "", .line "Y"] =
      .ok ("Ada", "a@x.com", "acme", "demo", ">=3.10") []) ∧
    (query_params true 2
        [.line "Ada", .line "a@x.com", .line "acme", .line "demo", .line "", .line "nope"] =
      query_params true 1 []) :=
  ⟨(c4_confirmation_requires_y "Ada" "a@x.com" "acme" "demo" "" "Y" [] 0
      (by decide) (by decide) (by decide) (by decide)).1 (by decide),
    (c4_confirmation_requires_y "Ada" "a@x.com" "acme" "demo" "" "nope" [] 1
      (by decide) (by decide) (by decide) (by decide)).2 (by decide)⟩

/-- Claim C6: in the dependency inner loop, an empty input at the version
prompt always fails the non-emptiness check and is re-prompted (the empty
fallback default of `input(...) or ""` itself fails the check), so the
accept-empty-default branch is unreachable and every version string in a
mapping returned by `query_dependencies` is non-empty. -/
theorem c6_version_nonempty :
    (∀ r : List InEvent, promptVersion (.line "" :: r) = promptVersion r) ∧
    (∀ (fuel : Nat) (st : List InEvent) (res : List (String × String)) (r : List InEvent),
      query_dependencies fuel [] st = .ok res r → ∀ p ∈ res, p.2 ≠ "") := by
  constructor
  · exact promptVersion_skip
  · intro fuel st res r h
    exact qd_versions_ne fuel (by intro p hp; simp at hp) h

/-- Witness for C6 at a concrete collected mapping. -/
theorem c6_witness : (">=2.0" : String) ≠ "" :=
  c6_version_nonempty.2 2 [.line "y", .line "requests", .line ">=2.0", .line "y", .line "n"]
    [("requests", ">=2.0")] [] rfl ("requests", ">=2.0") (by decide)

/-- Claim C7: in `query_params`, each required prompt (name, email,
project name, project description) rejects an empty input and re-prompts,
and accepts the first non-empty input; the python-version prompt alone
accepts empty input, in which case `>=3.10` is used.  The last conjunct
runs `query_params` itself on one round of answers with an empty
python-version line. -/
theorem c7_required_prompts :
    (∀ r : List InEvent, promptNonEmpty (.line "" :: r) = promptNonEmpty r) ∧
    (∀ (s : String) (r : List InEvent), s ≠ "" → promptNonEmpty (.line s :: r) = .ok s r) ∧
    (∀ r : List InEvent, pyPrompt (.line "" :: r) = .ok ">=3.10" r) ∧
    (∀ (a b c d : String) (r : List InEvent) (fuel : Nat),
      a ≠ "" → b ≠ "" → c ≠ "" → d ≠ "" →
      query_params true (fuel + 1)
        (.line a :: .line b :: .line c :: .line d :: .line "" :: .line "y" :: r) =
        .ok (a, b, c, d, ">=3.10") r) := by
  refine ⟨promptNonEmpty_skip, fun s r h => promptNonEmpty_accept h r, pyPrompt_default, ?_⟩
  intro a b c d r fuel ha hb hc hd
  exact (query_params_round a b c d "" "y" r fuel ha hb hc hd).1 (by decide)

/-- Witness for C7: a prompt accepting a concrete non-empty input, and a
concrete one-round run accepted on first non-empty inputs with defaulted
python version. -/
theorem c7_witness :
    (promptNonEmpty [.line "Ada"] = .ok "Ada" []) ∧
    (query_params true 1
        [.line "Ada", .line "a@x.com", .line "acme", .line "demo", .line "", .line "y"] =
      .ok ("Ada", "a@x.com", "acme", "demo", ">=3.10") []) :=
  ⟨c7_required_prompts.2.1 "Ada" [] (by decide),
    c7_required_prompts.2.2.2 "Ada" "a@x.com" "acme" "demo" [] 0
      (by decide) (by decide) (by decide) (by decide)⟩


/-- Claim C5: an interrupt raised at any prompt inside the inner
collection loop of `query_dependencies` (the dependency-name prompt, the
version prompt, or the add-another prompt — the prompts inside the `try:`
block) discards the whole mapping built so far and ends the phase,
returning the empty mapping.  The last conjunct shows the scopes are
independent: in the concrete run `scopesAnswers`, the runtime scope's
completed entry survives into the written descriptor while the
interrupted development scope yields the empty list. -/
theorem c5_interrupt_resets_scope :
    (∀ (fuel : Nat) (deps : List (String × String)) (y : String) (r : List InEvent),
      pyLower y = "y" →
        query_dependencies (fuel + 1) deps (.line y :: .interrupt :: r) = .ok [] r) ∧
    (∀ (fuel : Nat) (deps : List (String × String)) (y d : String) (r : List InEvent),
      pyLower y = "y" → d ≠ "" →
        query_dependencies (fuel + 1) deps (.line y :: .line d :: .interrupt :: r) = .ok [] r) ∧
    (∀ (fuel : Nat) (deps : List (String × String)) (y d v : String) (r : List InEvent),
      pyLower y = "y" → d ≠ "" → v ≠ "" →
        query_dependencies (fuel + 1) deps
          (.line y :: .line d :: .line v :: .interrupt :: r) = .ok [] r) ∧
    ((main 2 2 2024 flatSt scopesAnswers).2.pyproject.bind
        (fun w => tgetPath w ["project", "dependencies"]) =
          some (.arr [.str "\"requests >=2.0\""]) ∧
      (main 2 2 2024 flatSt scopesAnswers).2.pyproject.bind
        (fun w => tgetPath w ["project", "optional-dependencies", "dev"]) =
          some (.arr [])) := by
  refine ⟨?_, ?_, ?_, rfl, rfl⟩
  · intro fuel deps y r hy
    simp [query_dependencies, inputLine, promptNonEmpty, hy]
  · intro fuel deps y d r hy hd
    simp [query_dependencies, inputLine, promptNonEmpty, promptVersion, hy, hd]
  · intro fuel deps y d v r hy hd hv
    simp [query_dependencies, inputLine, promptNonEmpty, promptVersion, hy, hd, hv]

/-- Witness for C5: an interrupt at each of the three inner prompts wipes
a non-empty partial mapping. -/
theorem c5_witness :
    (query_dependencies 1 [("black", ">= 23.0.0")] [.line "y", .interrupt] = .ok [] []) ∧
    (query_dependencies 1 [("black", ">= 23.0.0")]
        [.line "y", .line "requests", .interrupt] = .ok [] []) ∧
    (query_dependencies 1 [("black", ">= 23.0.0")]
        [.line "y", .line "requests", .line ">=2.0", .interrupt] = .ok [] []) :=
  ⟨c5_interrupt_resets_scope.1 0 [("black", ">= 23.0.0")] "y" [] rfl,
    c5_interrupt_resets_scope.2.1 0 [("black", ">= 23.0.0")] "y" "requests" [] rfl (by decide),
    c5_interrupt_resets_scope.2.2.1 0 [("black", ">= 23.0.0")] "y" "requests" ">=2.0" [] rfl
      (by decide) (by decide)⟩

theorem replaceGo_no_match {pat : List Char} (rep : List Char) :
    ∀ s : List Char, hasTok pat s = false → replaceGo pat rep s 0 = s := by
  intro s
  induction s with
  | nil => intro _; rfl
  | cons c rest ih =>
    intro h
    rw [hasTok, Bool.or_eq_false_iff] at h
    rw [replaceGo, if_neg]
    · rw [ih h.2]
    · intro hc
      rw [h.1] at hc
      exact absurd hc.2 (by simp)

theorem update_license_id {name : String} {year : Nat} {s : String}
    (hy : hasTok "<year>".data s.data = false)
    (hn : hasTok "<name>".data s.data = false) :
    update_license name year s = s := by
  obtain ⟨l⟩ := s
  show (⟨replaceGo "<name>".data name.data
    (⟨replaceGo "<year>".data (toString year).data l 0⟩ : String).data 0⟩ : String) = ⟨l⟩
  rw [replaceGo_no_match _ l hy]
  show (⟨replaceGo "<name>".data name.data l 0⟩ : String) = ⟨l⟩
  rw [replaceGo_no_match _ l hn]

/-- Claim C8: `update_license` replaces every literal occurrence of
`<year>` with the year as an unpadded decimal and every occurrence of
`<name>` with the author name (first conjunct: the concrete example with
author `Ada Lovelace` in 2024, with repeated occurrences of both tokens),
and alters no other text (second conjunct: a text containing neither token
is returned unchanged). -/
theorem c8_license_update :
    update_license "Ada Lovelace" 2024
        "MIT License Copyright (c) <year> <name>. Signed <name>, <year>." =
      "MIT License Copyright (c) 2024 Ada Lovelace. Signed Ada Lovelace, 2024." ∧
    (∀ (name : String) (year : Nat) (s : String),
      hasTok "<year>".data s.data = false → hasTok "<name>".data s.data = false →
      update_license name year s = s) :=
  ⟨rfl, fun _ _ _ hy hn => update_license_id hy hn⟩

/-- Witness for C8: a placeholder-free text is untouched. -/
theorem c8_witness : update_license "Ada" 2024 "no placeholders here" = "no placeholders here" :=
  c8_license_update.2 "Ada" 2024 "no placeholders here" (by decide) (by decide)


theorem find_map_set_ne {k1 k2 : String} (v : TomlV) (h : k1 ≠ k2) :
    ∀ kvs : List (String × TomlV),
      (kvs.map (fun p => if p.1 = k1 then (k1, v) else p)).find? (fun p => p.1 = k2) =
        kvs.find? (fun p => p.1 = k2) := by
  intro kvs
  induction kvs with
  | nil => rfl
  | cons p ps ih =>
    by_cases hp : p.1 = k1
    · simp [List.find?_cons, hp, h, Ne.symm h, ih]
    · simp only [List.map_cons, if_neg hp]
      by_cases hq : p.1 = k2
      · simp [List.find?_cons, hq]
      · simp [List.find?_cons, hq, ih]

theorem find_append_ne {k1 k2 : String} (v : TomlV) (h : k1 ≠ k2) :
    ∀ kvs : List (String × TomlV),
      (kvs ++ [(k1, v)]).find? (fun p => p.1 = k2) = kvs.find? (fun p => p.1 = k2) := by
  intro kvs
  induction kvs with
  | nil => simp [List.find?_cons, h]
  | cons p ps ih =>
    by_cases hq : p.1 = k2
    · simp [List.find?_cons, hq]
    · simp [List.find?_cons, hq, ih]

theorem tget_tset_ne {t : TomlV} {k1 k2 : String} (h : k1 ≠ k2) (v : TomlV) :
    tget (tset t k1 v) k2 = tget t k2 := by
  cases t with
  | str s => rfl
  | arr xs => rfl
  | table kvs =>
    simp only [tset]
    split
    · simp only [tget, find_map_set_ne v h kvs]
    · simp only [tget, find_append_ne v h kvs]

theorem setAnswers_tool {d d' : TomlV} {a b c e f : String}
    (h : setAnswers d a b c e f = some d') : tget d' "tool" = tget d "tool" := by
  unfold setAnswers at h
  split at h
  · exact absurd h (by simp)
  · rw [← Option.some.inj h]
    exact tget_tset_ne (by decide) _

theorem setDeps_tool {d d' : TomlV} {deps : List (String × String)}
    (h : setDeps d deps = some d') : tget d' "tool" = tget d "tool" := by
  unfold setDeps at h
  split at h
  · exact absurd h (by simp)
  · rw [← Option.some.inj h]
    exact tget_tset_ne (by decide) _

theorem setOptDeps_tool {d d' : TomlV} {k : String} {deps : List (String × String)}
    (h : setOptDeps d k deps = some d') : tget d' "tool" = tget d "tool" := by
  unfold setOptDeps at h
  split at h
  · exact absurd h (by simp)
  · split at h
    · exact absurd h (by simp)
    · rw [← Option.some.inj h]
      exact tget_tset_ne (by decide) _

theorem dyn_chain {data d1 d2 d3 d4 d5 : TomlV} {a b c e f : String}
    {r1 r2 r3 r4 : List (String × String)}
    (h1 : setAnswers data a b c e f = some d1)
    (h2 : setDeps d1 r1 = some d2)
    (h3 : setOptDeps d2 "dev" r2 = some d3)
    (h4 : setOptDeps d3 "doc" r3 = some d4)
    (h5 : setOptDeps d4 "test" r4 = some d5) :
    tgetPath d5 ["tool", "setuptools", "dynamic"] =
      tgetPath data ["tool", "setuptools", "dynamic"] := by
  have ht : tget d5 "tool" = tget data "tool" := by
    rw [setOptDeps_tool h5, setOptDeps_tool h4, setOptDeps_tool h3, setDeps_tool h2,
      setAnswers_tool h1]
  simp only [tgetPath, ht]

theorem mainRenameStage_pyproject (fuel : Nat) (st : St) (p : String) (d : TomlV) :
    (mainRenameStage fuel st p d).2.pyproject = st.pyproject := by
  simp only [mainRenameStage]
  repeat' split
  all_goals rfl

theorem mainRenameStage_code {fuel : Nat} {st : St} {p : String} {d : TomlV} {c : Nat}
    {st2 : St} (h : mainRenameStage fuel st p d = (.exited c, st2)) : c = 0 := by
  simp only [mainRenameStage] at h
  repeat' split at h
  all_goals simp_all

theorem mainRenameStage_src (fuel : Nat) (st : St) (p : String) (d : TomlV)
    (m : String) (ch rest2 : List Entry) (h : st.tree = .dir m ch :: rest2) :
    (mainRenameStage fuel st p d).1 = .crashed .recursionError := by
  unfold mainRenameStage
  rw [h, rename_head_dir m ch rest2 fuel p]

/-- Claim C9: `main` exits with code 1 after printing a message when
`pyproject.toml` is missing; it exits with code 0 when a
`KeyboardInterrupt` aborts metadata collection (`query_params` does not
catch it, so it reaches `main`'s handler); a missing `LICENSE` is *not*
caught and propagates as an unhandled error rather than a handled exit
(third conjunct, at the standard run); and the only exit codes `main` can
produce are 0 and 1, so a run that completes normally exits 0 (last
conjunct). -/
theorem c9_exit_codes :
    (∀ (fuel rlimit year : Nat) (st : St) (input : List InEvent),
      st.pyproject = none → main fuel rlimit year st input = (.exited 1, st)) ∧
    (∀ (fuel rlimit year : Nat) (st : St) (input : List InEvent) (d : TomlV)
      (r : List InEvent),
      st.pyproject = some d → query_params true fuel input = .exc .keyboardInterrupt r →
      (main fuel rlimit year st input).1 = .exited 0) ∧
    (main 1 1 2024 { pyproject := some minimalDescriptor, license := none, tree := srcTree }
        standardAnswers =
      (.crashed .fileNotFound,
        { pyproject := some minimalDescriptor, license := none, tree := srcTree })) ∧
    (∀ (fuel rlimit year : Nat) (st : St) (input : List InEvent) (c : Nat) (st2 : St),
      main fuel rlimit year st input = (.exited c, st2) → c = 0 ∨ c = 1) := by
  refine ⟨?_, ?_, rfl, ?_⟩
  · intro fuel rlimit year st input h
    simp [main, h]
  · intro fuel rlimit year st input d r h1 h2
    simp [main, h1, h2]
  · intro fuel rlimit year st input c st2 h
    simp only [main] at h
    repeat' split at h
    all_goals try (exact Or.inl (mainRenameStage_code h))
    all_goals simp_all

/-- Witness for C9: the missing-descriptor exit at a concrete state, and a
concrete run interrupted at the very first metadata prompt. -/
theorem c9_witness :
    (main 5 5 2024 { pyproject := none, license := none, tree := [] } [] =
      (.exited 1, { pyproject := none, license := none, tree := [] })) ∧
    ((main 1 1 2024 flatSt [.interrupt]).1 = .exited 0) ∧
    ((1 : Nat) = 0 ∨ (1 : Nat) = 1) :=
  ⟨c9_exit_codes.1 5 5 2024 _ [] rfl,
    c9_exit_codes.2.1 1 1 2024 flatSt [.interrupt] minimalDescriptor [] rfl rfl,
    c9_exit_codes.2.2.2 5 5 2024 { pyproject := none, license := none, tree := [] } [] 1
      { pyproject := none, license := none, tree := [] } rfl⟩

/-- Claim C10: the assignment to `data["tool"]["setuptools"]["dynamic"]`
in `main` runs only after `toml.dump` has already written
`pyproject.toml`, so after any run whatsoever the `tool.setuptools.dynamic`
entry of the `pyproject.toml` on disk equals the entry of the original
file: the written contents are independent of that assignment and never
reflect the updated dynamic-versioning value. -/
theorem c10_dump_precedes_dynamic :
    ∀ (fuel rlimit year : Nat) (st : St) (input : List InEvent),
      (main fuel rlimit year st input).2.pyproject.bind
          (fun w => tgetPath w ["tool", "setuptools", "dynamic"]) =
        st.pyproject.bind (fun w => tgetPath w ["tool", "setuptools", "dynamic"]) := by
  intro fuel rlimit year st input
  simp only [main]
  repeat' split
  all_goals try rfl
  all_goals rw [mainRenameStage_pyproject]
  all_goals simp_all
  all_goals (apply dyn_chain <;> assumption)

/-- Claim C3 (refuted; code bug): the end-to-end run of the spec does not
terminate normally.  The five answers and the empty dependency lists are
written to `pyproject.toml` exactly as claimed (second conjunct), but
`main` then calls `rename_project("acme")` on a working directory
containing the directory `src`; the walk re-lists the unchanged working
directory in each recursive call, so it exhausts any recursion-depth
budget (`RecursionError`) and the run crashes before
`os.rename("src/project_name", "src/acme")` is reached — `src/acme` is
never created. -/
theorem c3_end_to_end_crashes :
    ∀ (rlimit year : Nat),
      (main 1 rlimit year endToEndSt standardAnswers).1 = .crashed .recursionError ∧
      (main 1 rlimit year endToEndSt standardAnswers).2.pyproject = some dumpedDescriptor := by
  intro rlimit year
  have step : main 1 rlimit year endToEndSt standardAnswers =
      mainRenameStage rlimit
        { pyproject := some dumpedDescriptor,
          license := some (update_license "Ada" year licenseTemplate),
          tree := srcTree } "acme" dumpedDescriptor := rfl
  constructor
  · rw [step]
    exact mainRenameStage_src _ _ _ _ "src" [Entry.dir "project_name" []] [] rfl
  · rw [step, mainRenameStage_pyproject]

end PyInit
